import Mathlib

/-!
Shallow embedding of `src/main.py` (JWT API Simulation): a Flask app that
issues 30-second PS512-signed JWTs bound to a cookie and verifies them on a
protected endpoint via PyJWT's `jwt.decode`.

Modelling conventions:
* Unix timestamps are `Int` (Python ints are unbounded).
* A JWT is modelled symbolically: a `Token` carries its header, its claim
  set, and a `Sig` recording which private key signed which bytes; signature
  verification succeeds exactly when the recorded key matches the verifying
  key and the recorded bytes match the token's actual header and claims.
* The cookie value on the wire is `CookieVal`: the empty string (falsy in
  Python), a string whose JOSE header cannot be parsed by
  `jwt.get_unverified_header`, or a structurally well-formed token.
* `jwt.decode` (PyJWT 2.x) is embedded by `jwtDecode`: algorithm pinning and
  signature verification first, then `_validate_claims`, which checks the
  `require` list, then iat, nbf, exp, then issuer, then audience, raising on
  the first failure.
-/

/-- Python `str.strip()` whitespace predicate (ASCII subset). -/
def pyIsSpace (c : Char) : Bool :=
  c = ' ' || c = '\t' || c = '\n' || c = '\r' || c = '\x0b' || c = '\x0c'

/-- Python `str.strip()`: drop leading and trailing whitespace. -/
def pyStrip (s : String) : String :=
  String.mk (((s.toList.dropWhile pyIsSpace).reverse.dropWhile pyIsSpace).reverse)

/-- `ALG = "PS512"` (main.py line 25). -/
def ALG : String := "PS512"

/-- `ISSUER = "JWT API Simulation"` (line 26). -/
def ISSUER : String := "JWT API Simulation"

/-- `AUDIENCE = "JWT API Simulation"` (line 27). -/
def AUDIENCE : String := "JWT API Simulation"

/-- `LEEWAY_SECONDS = 2` (line 28). -/
def LEEWAY_SECONDS : Int := 2

/-- `COOKIE_NAME = "session_jwt"` (line 29). -/
def COOKIE_NAME : String := "session_jwt"

/-- `COOKIE_EXP = "jwt_exp"` (line 30). -/
def COOKIE_EXP : String := "jwt_exp"

/-- The `require` option passed to `jwt.decode` at line 476. -/
def REQUIRED : List String := ["exp", "iat", "nbf", "iss", "aud", "sub"]

/-- JOSE header, as built at line 416: `{"alg": ALG, "kid": KID, "typ": "JWT"}`. -/
structure Header where
  alg : String
  kid : String
  typ : String
deriving DecidableEq

/-- JWT payload. Each registered claim is `Option` so that forged tokens may
omit claims; `issue_jwt_for_uid` always populates all seven (lines 407-415). -/
structure Claims where
  iss : Option String
  aud : Option String
  sub : Option String
  iat : Option Int
  nbf : Option Int
  exp : Option Int
  jti : Option String
deriving DecidableEq

/-- Symbolic signature: which private key signed which header/payload bytes,
under which algorithm. -/
structure Sig where
  keyId : Nat
  alg : String
  header : Header
  claims : Claims
deriving DecidableEq

/-- A structurally well-formed JWT: header, payload, signature. -/
structure Token where
  header : Header
  claims : Claims
  sig : Sig
deriving DecidableEq

/-- `jwt.encode(claims, private_pem(), algorithm=alg, headers=headers)`:
serialize and sign with the private key. -/
def jwtEncode (claims : Claims) (signKeyId : Nat) (alg : String) (headers : Header) : Token :=
  { header := headers, claims := claims
    sig := { keyId := signKeyId, alg := alg, header := headers, claims := claims } }

/-- The private JWK as loaded by `jwk.JWK.from_json` (line 19): an abstract
keypair identity plus the `kid` field of the JSON, when present. -/
structure LoadedJWK where
  kid : Option String
  keyId : Nat
deriving DecidableEq

/-- Process-lifetime key state after lines 19-22: `PRIV_JWK` (identified by
`keyId`) and the memoized module constant `KID`. -/
structure ProcessState where
  keyId : Nat
  kid : String
deriving DecidableEq

/-- Lines 19-22: if the loaded JWK lacks a `kid`, set one (a fresh uuid4 hex),
then memoize `KID` for the process lifetime. -/
def loadProcess (k : LoadedJWK) (freshHex : String) : ProcessState :=
  { keyId := k.keyId
    kid := match k.kid with
           | some s => s
           | none => freshHex }

/-- `issue_jwt_for_uid` (lines 402-418): fixed claim window around `now`,
fresh `jti` supplied by the uuid4 source, PS512 header with the process `kid`. -/
def issue_jwt_for_uid (st : ProcessState) (uid : String) (now : Int) (jtiHex : String) :
    Token × Int :=
  let iat := now
  let nbf := iat - LEEWAY_SECONDS
  let exp := iat + 30
  let claims : Claims :=
    { iss := some ISSUER, aud := some AUDIENCE, sub := some uid
      iat := some iat, nbf := some nbf, exp := some exp, jti := some jtiHex }
  let headers : Header := { alg := ALG, kid := st.kid, typ := "JWT" }
  (jwtEncode claims st.keyId ALG headers, exp)

/-- PyJWT exception classes that `api_ping` distinguishes. All are subclasses
of `InvalidTokenError`; `expiredSignature`, `invalidAudience`, `invalidIssuer`
get dedicated `except` clauses at lines 486-491. -/
inductive DecodeError where
  | invalidAlgorithm
  | invalidSignature
  | missingRequiredClaim (name : String)
  | immatureIat
  | immatureNbf
  | expiredSignature
  | invalidIssuer
  | invalidAudience
deriving DecidableEq

/-- `str(e)` for each modelled PyJWT exception. -/
def errMessage : DecodeError → String
  | DecodeError.invalidAlgorithm => "The specified alg value is not allowed"
  | DecodeError.invalidSignature => "Signature verification failed"
  | DecodeError.missingRequiredClaim n => "Token is missing the \"" ++ n ++ "\" claim"
  | DecodeError.immatureIat => "The token is not yet valid (iat)"
  | DecodeError.immatureNbf => "The token is not yet valid (nbf)"
  | DecodeError.expiredSignature => "Signature has expired"
  | DecodeError.invalidIssuer => "Invalid issuer"
  | DecodeError.invalidAudience => "Audience doesn't match"

/-- Successful RSA-PSS verification of the token's signature against a public
key, in the symbolic model: the signing key is the pair of the verifying key,
the signed algorithm is the header's, and the signed bytes are the token's. -/
def SigOK (t : Token) (pubKeyId : Nat) : Prop :=
  t.sig.keyId = pubKeyId ∧ t.sig.alg = t.header.alg ∧
    t.sig.header = t.header ∧ t.sig.claims = t.claims

instance (t : Token) (k : Nat) : Decidable (SigOK t k) := by
  unfold SigOK; infer_instance

/-- `payload.get(claim) is None` test used by `_validate_required_claims`. -/
def claimPresent (c : Claims) : String → Bool
  | "iss" => c.iss.isSome
  | "aud" => c.aud.isSome
  | "sub" => c.sub.isSome
  | "iat" => c.iat.isSome
  | "nbf" => c.nbf.isSome
  | "exp" => c.exp.isSome
  | "jti" => c.jti.isSome
  | _ => false

/-- First name in the `require` list whose claim is absent, if any. -/
def firstMissing (c : Claims) : List String → Option String
  | [] => none
  | n :: ns => if claimPresent c n then firstMissing c ns else some n

/-- `_validate_required_claims(payload, options)`. -/
def requiredErr (c : Claims) (req : List String) : Option DecodeError :=
  (firstMissing c req).map DecodeError.missingRequiredClaim

/-- `_validate_iat`: an issued-at in the future (beyond leeway) is immature. -/
def validate_iat (c : Claims) (now leeway : Int) : Option DecodeError :=
  match c.iat with
  | some iat => if iat > now + leeway then some DecodeError.immatureIat else none
  | none => none

/-- `_validate_nbf`: a not-before in the future (beyond leeway) is immature. -/
def validate_nbf (c : Claims) (now leeway : Int) : Option DecodeError :=
  match c.nbf with
  | some nbf => if nbf > now + leeway then some DecodeError.immatureNbf else none
  | none => none

/-- `_validate_exp`: expired when `exp <= now - leeway`. -/
def validate_exp (c : Claims) (now leeway : Int) : Option DecodeError :=
  match c.exp with
  | some e => if e ≤ now - leeway then some DecodeError.expiredSignature else none
  | none => none

/-- `_validate_iss` with a string `issuer` argument. -/
def validate_iss (c : Claims) (issuer : String) : Option DecodeError :=
  match c.iss with
  | none => some (DecodeError.missingRequiredClaim "iss")
  | some i => if i ≠ issuer then some DecodeError.invalidIssuer else none

/-- `_validate_aud` with a string `audience` argument; an absent or falsy
(empty) `aud` claim is reported as missing. -/
def validate_aud (c : Claims) (audience : String) : Option DecodeError :=
  match c.aud with
  | none => some (DecodeError.missingRequiredClaim "aud")
  | some a =>
    if a = "" then some (DecodeError.missingRequiredClaim "aud")
    else if a ≠ audience then some DecodeError.invalidAudience else none

/-- First failure in a fixed sequence of checks. -/
def firstErr : List (Option DecodeError) → Option DecodeError
  | [] => none
  | some e :: _ => some e
  | none :: rest => firstErr rest

/-- PyJWT `_validate_claims`: required claims, then iat, nbf, exp, then
issuer, then audience — first failure wins. -/
def validateClaims (c : Claims) (audience issuer : String) (req : List String)
    (leeway now : Int) : Option DecodeError :=
  firstErr
    [ requiredErr c req
      , validate_iat c now leeway
      , validate_nbf c now leeway
      , validate_exp c now leeway
      , validate_iss c issuer
      , validate_aud c audience ]

/-- PyJWT `jwt.decode` on a structurally well-formed token: pinned algorithm
list check, then signature verification, then `_validate_claims`. The accepted
algorithms are the caller-supplied list, never the token's own header. -/
def jwtDecode (t : Token) (pubKeyId : Nat) (algorithms : List String)
    (audience issuer : String) (req : List String) (leeway now : Int) :
    Except DecodeError Claims :=
  if t.header.alg ∉ algorithms then Except.error DecodeError.invalidAlgorithm
  else if ¬ SigOK t pubKeyId then Except.error DecodeError.invalidSignature
  else
    match validateClaims t.claims audience issuer req leeway now with
    | some e => Except.error e
    | none => Except.ok t.claims

/-- The `session_jwt` cookie value as the server receives it: Python-falsy
empty string, a string whose header `jwt.get_unverified_header` cannot read
(with the exception text), or a well-formed token. -/
inductive CookieVal where
  | emptyStr
  | malformed (detail : String)
  | wellFormed (t : Token)
deriving DecidableEq

/-- The two cookies the app ever reads: the HttpOnly authority cookie
`session_jwt` and the script-readable display cookie `jwt_exp`. -/
structure Cookies where
  session_jwt : Option CookieVal
  jwt_exp : Option String
deriving DecidableEq

/-- JSON body and HTTP status produced by `/api/ping` (lines 460-493). -/
structure ApiResponse where
  ok : Bool
  message : Option String
  now : Option Int
  header : Option Header
  claims : Option Claims
  error : Option String
  status : Nat
deriving DecidableEq

/-- `jsonify({"ok": False, "error": msg}), status`. -/
def mkErr (msg : String) (status : Nat) : ApiResponse :=
  { ok := false, message := none, now := none, header := none, claims := none
    error := some msg, status := status }

/-- `/api/ping` handler (lines 460-493): cookie presence, header readability,
then `jwt.decode` with pinned `algorithms=[ALG]`, fixed audience/issuer,
required claims and leeway; exceptions mapped to distinct JSON errors. -/
def api_ping (st : ProcessState) (jar : Cookies) (now : Int) : ApiResponse :=
  match jar.session_jwt with
  | none => mkErr "Missing JWT (Cookie)" 401
  | some CookieVal.emptyStr => mkErr "Missing JWT (Cookie)" 401
  | some (CookieVal.malformed d) => mkErr ("Cannot read header: " ++ d) 400
  | some (CookieVal.wellFormed t) =>
    match jwtDecode t st.keyId [ALG] AUDIENCE ISSUER REQUIRED LEEWAY_SECONDS now with
    | Except.ok claims =>
        { ok := true, message := some "Validation successful", now := some now
          header := some t.header, claims := some claims, error := none, status := 200 }
    | Except.error DecodeError.expiredSignature => mkErr "Token expired" 401
    | Except.error DecodeError.invalidAudience => mkErr "aud mismatch" 401
    | Except.error DecodeError.invalidIssuer => mkErr "iss mismatch" 401
    | Except.error e => mkErr ("Invalid Token: " ++ errMessage e) 401

/-- Value carried by a `Set-Cookie` directive: the opaque token, or plain text. -/
inductive CookieValue where
  | tok (t : Token)
  | str (s : String)
deriving DecidableEq

/-- One `resp.set_cookie(...)` directive. -/
structure SetCookie where
  name : String
  value : CookieValue
  maxAge : Int
  httponly : Bool
  samesite : String
  path : String
deriving DecidableEq

/-- `set_session` (lines 420-431): authority cookie HttpOnly at `/`, display
cookie (plain expiry integer) script-readable at `/demo`, both max-age 32. -/
def set_session (token : Token) (exp : Int) : List SetCookie :=
  [ { name := COOKIE_NAME, value := CookieValue.tok token, maxAge := 32,
      httponly := true, samesite := "Lax", path := "/" },
    { name := COOKIE_EXP, value := CookieValue.str (toString exp), maxAge := 32,
      httponly := false, samesite := "Lax", path := "/demo" } ]

/-- Response of the `/issue` route: status, body, cookie directives, redirect. -/
structure IssueResp where
  status : Nat
  body : String
  cookies : List SetCookie
  location : Option String
deriving DecidableEq

/-- `/issue` handler (lines 441-449): strip the form `uid`; reject the empty
result with 400 and no cookie directives; otherwise mint a token, redirect to
`/demo` and set both session cookies. -/
def issue (st : ProcessState) (uidForm : Option String) (now : Int) (jtiHex : String) :
    IssueResp :=
  let uid := pyStrip (uidForm.getD "")
  if uid = "" then { status := 400, body := "UID is required", cookies := [], location := none }
  else
    let te := issue_jwt_for_uid st uid now jtiHex
    { status := 302, body := "", cookies := set_session te.1 te.2, location := some "/demo" }

/-- `public_jwk_obj` (lines 38-42): public half of `PRIV_JWK` with `use=sig`
and the algorithm tag. -/
structure JWKPub where
  kid : String
  use : String
  alg : String
  keyId : Nat
deriving DecidableEq

def public_jwk_obj (st : ProcessState) : JWKPub :=
  { kid := st.kid, use := "sig", alg := ALG, keyId := st.keyId }

/-- `/.well-known/jwks.json` (lines 501-505). -/
structure JwksResp where
  keys : List JWKPub
  cacheControl : String
deriving DecidableEq

def jwks (st : ProcessState) : JwksResp :=
  { keys := [public_jwk_obj st], cacheControl := "public, max-age=300" }

/-! ### Concrete fixtures used to instantiate the theorems -/

def demoState : ProcessState := { keyId := 0, kid := "kid-0" }

def demoClaims : Claims :=
  { iss := some "JWT API Simulation", aud := some "JWT API Simulation", sub := some "u",
    iat := some 100, nbf := some 98, exp := some 130, jti := some "j" }

/-- A forged token declaring algorithm `"none"`. -/
def noneAlgToken : Token :=
  jwtEncode demoClaims 0 "none" { alg := "none", kid := "kid-0", typ := "JWT" }

def badIssAudClaims : Claims :=
  { iss := some "evil-iss", aud := some "evil-aud", sub := some "u",
    iat := some 100, nbf := some 98, exp := some 130, jti := some "j" }

/-- A correctly signed token whose issuer and audience both mismatch. -/
def badIssAudToken : Token :=
  jwtEncode badIssAudClaims 0 "PS512" { alg := "PS512", kid := "kid-0", typ := "JWT" }

/-! ## Theorems -/

/-- C2: every token produced by `issue_jwt_for_uid` carries claims with
`exp - iat = 30` exactly and `nbf ≤ iat`, for every subject, clock value and
token id. -/
theorem issued_token_window (st : ProcessState) (uid : String) (now : Int) (jti : String) :
    ∃ iat nbf exp : Int,
      (issue_jwt_for_uid st uid now jti).1.claims.iat = some iat ∧
      (issue_jwt_for_uid st uid now jti).1.claims.nbf = some nbf ∧
      (issue_jwt_for_uid st uid now jti).1.claims.exp = some exp ∧
      exp - iat = 30 ∧ nbf ≤ iat := by
  refine ⟨now, now - LEEWAY_SECONDS, now + 30, rfl, rfl, rfl, by ring, ?_⟩
  simp [LEEWAY_SECONDS]

/-- C9: two `issue_jwt_for_uid` calls whose uuid4 source yields distinct hex
values produce tokens with distinct `jti` claims, even for the same subject. -/
theorem jti_distinct (st : ProcessState) (uid : String) (n1 n2 : Int) (j1 j2 : String)
    (h : j1 ≠ j2) :
    (issue_jwt_for_uid st uid n1 j1).1.claims.jti ≠
      (issue_jwt_for_uid st uid n2 j2).1.claims.jti := by
  intro hc
  exact h (by simpa [issue_jwt_for_uid, jwtEncode] using hc)

theorem jti_distinct_witness :
    (issue_jwt_for_uid ⟨0, "k"⟩ "user-123" 100 "aaaa").1.claims.jti ≠
      (issue_jwt_for_uid ⟨0, "k"⟩ "user-123" 101 "bbbb").1.claims.jti :=
  jti_distinct ⟨0, "k"⟩ "user-123" 100 101 "aaaa" "bbbb" (by decide)

/-- C8: the outcome of `/api/ping` depends only on the `session_jwt` cookie
and the clock; two requests agreeing on `session_jwt` but with arbitrary
`jwt_exp` display cookies get identical responses. -/
theorem display_cookie_no_authority (st : ProcessState) (now : Int) (j1 j2 : Cookies)
    (h : j1.session_jwt = j2.session_jwt) :
    api_ping st j1 now = api_ping st j2 now := by
  unfold api_ping
  rw [h]

theorem display_cookie_no_authority_witness :
    api_ping ⟨0, "k"⟩ { session_jwt := none, jwt_exp := some "9999" } 5 =
      api_ping ⟨0, "k"⟩ { session_jwt := none, jwt_exp := none } 5 :=
  display_cookie_no_authority ⟨0, "k"⟩ 5
    { session_jwt := none, jwt_exp := some "9999" }
    { session_jwt := none, jwt_exp := none } rfl

/-- C6: an `/issue` request whose `uid` form field is absent, empty, or
whitespace-only is answered with status 400 and an empty list of cookie
directives; the issuer is never invoked. -/
theorem empty_uid_rejected (st : ProcessState) (uidForm : Option String) (now : Int)
    (jti : String) (h : pyStrip (uidForm.getD "") = "") :
    issue st uidForm now jti =
      { status := 400, body := "UID is required", cookies := [], location := none } := by
  simp [issue, h]

theorem empty_uid_rejected_witness :
    issue ⟨0, "k"⟩ (some "   ") 100 "j" =
      { status := 400, body := "UID is required", cookies := [], location := none } :=
  empty_uid_rejected ⟨0, "k"⟩ (some "   ") 100 "j" (by decide)

/-- C7: the `kid` is fixed at load time — taken from the loaded key material
when present, generated once otherwise — and the JWK served by
`/.well-known/jwks.json` carries exactly the same `kid` that
`issue_jwt_for_uid` embeds in every token header of the same process. -/
theorem kid_agreement (k : LoadedJWK) (freshHex uid jti : String) (now : Int) :
    (∀ s, k.kid = some s → (loadProcess k freshHex).kid = s) ∧
    (k.kid = none → (loadProcess k freshHex).kid = freshHex) ∧
    (jwks (loadProcess k freshHex)).keys.map JWKPub.kid = [(loadProcess k freshHex).kid] ∧
    (issue_jwt_for_uid (loadProcess k freshHex) uid now jti).1.header.kid =
      (loadProcess k freshHex).kid := by
  refine ⟨?_, ?_, ?_, rfl⟩
  · intro s hs; simp [loadProcess, hs]
  · intro hn; simp [loadProcess, hn]
  · simp [jwks, public_jwk_obj]

theorem kid_agreement_witness :
    (loadProcess ⟨some "kid-1", 0⟩ "fresh").kid = "kid-1" ∧
    (issue_jwt_for_uid (loadProcess ⟨some "kid-1", 0⟩ "fresh") "u" 5 "j").1.header.kid =
      (loadProcess ⟨some "kid-1", 0⟩ "fresh").kid := by
  have h := kid_agreement ⟨some "kid-1", 0⟩ "fresh" "u" "j" 5
  exact ⟨h.1 "kid-1" rfl, h.2.2.2⟩

/-- C10: for a form `uid` with a non-empty core, the `/issue` route mints the
token for the stripped value: the response redirects with the cookies of the
token whose `sub` is the trimmed uid, and when the raw value differs from its
trimmed form the raw value is never the subject. -/
theorem uid_trimmed_sub (st : ProcessState) (raw : String) (now : Int) (jti : String)
    (h : pyStrip raw ≠ "") :
    (issue st (some raw) now jti).status = 302 ∧
    (issue st (some raw) now jti).cookies =
      set_session (issue_jwt_for_uid st (pyStrip raw) now jti).1
        (issue_jwt_for_uid st (pyStrip raw) now jti).2 ∧
    (issue_jwt_for_uid st (pyStrip raw) now jti).1.claims.sub = some (pyStrip raw) ∧
    (raw ≠ pyStrip raw →
      (issue_jwt_for_uid st (pyStrip raw) now jti).1.claims.sub ≠ some raw) := by
  refine ⟨?_, ?_, rfl, ?_⟩
  · simp [issue, h]
  · simp [issue, h]
  · intro hne hc
    have : pyStrip raw = raw := by
      simpa [issue_jwt_for_uid, jwtEncode] using hc
    exact hne this.symm

theorem uid_trimmed_sub_witness :
    (issue ⟨0, "k"⟩ (some "  user-123 ") 100 "j").status = 302 ∧
    (issue_jwt_for_uid ⟨0, "k"⟩ (pyStrip "  user-123 ") 100 "j").1.claims.sub ≠
      some "  user-123 " := by
  have h := uid_trimmed_sub ⟨0, "k"⟩ "  user-123 " 100 "j" (by decide)
  exact ⟨h.1, h.2.2.2 (by decide)⟩

/-- For the claims minted by the issuer, PyJWT claim validation at the
issuing clock value passes every check. -/
lemma validateClaims_issued (uid jti : String) (now : Int) :
    validateClaims
      { iss := some ISSUER, aud := some AUDIENCE, sub := some uid,
        iat := some now, nbf := some (now - LEEWAY_SECONDS),
        exp := some (now + 30), jti := some jti }
      AUDIENCE ISSUER REQUIRED LEEWAY_SECONDS now = none := by
  simp [validateClaims, requiredErr, REQUIRED, firstMissing, claimPresent,
        validate_iat, validate_nbf, validate_exp, validate_iss, validate_aud,
        firstErr, LEEWAY_SECONDS, AUDIENCE, ISSUER]
  rw [if_neg (by omega), if_neg (by omega)]
  simp [firstErr]

/-- C1: for every valid (non-empty after trimming) subject, issuing a token
and immediately calling `/api/ping` with it succeeds, and the returned claims
have `sub` equal to the input subject and `iss` and `aud` both equal to
`"JWT API Simulation"`. -/
theorem issue_then_verify (st : ProcessState) (uid : String) (now : Int) (jti : String)
    (dc : Option String) (hvalid : pyStrip uid = uid ∧ uid ≠ "") :
    api_ping st { session_jwt := some (CookieVal.wellFormed (issue_jwt_for_uid st uid now jti).1),
                  jwt_exp := dc } now =
      { ok := true, message := some "Validation successful", now := some now,
        header := some { alg := ALG, kid := st.kid, typ := "JWT" },
        claims := some { iss := some "JWT API Simulation", aud := some "JWT API Simulation",
                         sub := some uid, iat := some now, nbf := some (now - LEEWAY_SECONDS),
                         exp := some (now + 30), jti := some jti },
        error := none, status := 200 } := by
  have hv := validateClaims_issued uid jti now
  simp only [api_ping, issue_jwt_for_uid, jwtEncode, jwtDecode]
  rw [if_neg (by simp [ALG])]
  rw [if_neg (not_not_intro ⟨rfl, rfl, rfl, rfl⟩)]
  rw [hv]
  rfl

theorem issue_then_verify_witness :
    (api_ping ⟨0, "k"⟩
        { session_jwt :=
            some (CookieVal.wellFormed (issue_jwt_for_uid ⟨0, "k"⟩ "user-123" 1000 "j").1),
          jwt_exp := none } 1000).ok = true := by
  rw [issue_then_verify ⟨0, "k"⟩ "user-123" 1000 "j" none ⟨by decide, by decide⟩]

/-- C4: any token whose header declares an algorithm other than the pinned
`PS512` — including `"none"` — is rejected by `/api/ping` with a 401 invalid
token error, and its claims are never returned; the accepted algorithm list
is the constant `[ALG]`, independent of the token's own header. -/
theorem alg_pinned (st : ProcessState) (jar : Cookies) (now : Int) (t : Token)
    (hjar : jar.session_jwt = some (CookieVal.wellFormed t)) (halg : t.header.alg ≠ ALG) :
    api_ping st jar now = mkErr "Invalid Token: The specified alg value is not allowed" 401 ∧
    (api_ping st jar now).claims = none := by
  have h : api_ping st jar now =
      mkErr "Invalid Token: The specified alg value is not allowed" 401 := by
    simp only [api_ping, hjar, jwtDecode]
    rw [if_pos (by simpa using halg)]
    rfl
  exact ⟨h, by rw [h]; rfl⟩

theorem alg_pinned_witness :
    api_ping demoState
        { session_jwt := some (CookieVal.wellFormed noneAlgToken), jwt_exp := none } 100 =
      mkErr "Invalid Token: The specified alg value is not allowed" 401 :=
  (alg_pinned demoState
    { session_jwt := some (CookieVal.wellFormed noneAlgToken), jwt_exp := none }
    100 noneAlgToken rfl (by decide)).1

/-- C5: every failure of `/api/ping` is a `{ok:false, error}` JSON body whose
status is 401 or 400, status 400 occurring exactly when the token's header is
structurally unreadable; with no authority cookie the body is exactly
`{ok:false, error:"Missing JWT (Cookie)"}` with status 401. -/
theorem failure_response_shape (st : ProcessState) (jar : Cookies) (now : Int) :
    (jar.session_jwt = none → api_ping st jar now = mkErr "Missing JWT (Cookie)" 401) ∧
    ((api_ping st jar now).ok = false →
      (api_ping st jar now).error.isSome ∧
        ((api_ping st jar now).status = 400 ∨ (api_ping st jar now).status = 401)) ∧
    ((api_ping st jar now).status = 400 ↔
      ∃ d, jar.session_jwt = some (CookieVal.malformed d)) := by
  obtain ⟨sj, de⟩ := jar
  cases sj with
  | none => simp [api_ping, mkErr]
  | some v =>
    cases v with
    | emptyStr => simp [api_ping, mkErr]
    | malformed d => simp [api_ping, mkErr]
    | wellFormed t =>
      cases h : jwtDecode t st.keyId [ALG] AUDIENCE ISSUER REQUIRED LEEWAY_SECONDS now with
      | ok c => simp [api_ping, h, mkErr]
      | error e => cases e <;> simp [api_ping, h, mkErr]

theorem failure_response_shape_witness :
    api_ping demoState { session_jwt := none, jwt_exp := some "130" } 100 =
      mkErr "Missing JWT (Cookie)" 401 :=
  (failure_response_shape demoState { session_jwt := none, jwt_exp := some "130" } 100).1 rfl

/-- C3: within one `/api/ping` verification the checks run in the strict fixed
order: token presence, header readability, algorithm-pinned signature check,
required-claims presence, expiry, issuer exact match, audience exact match —
each step producing its own distinct failure response and short-circuiting all
later steps. In particular, when the earlier checks pass and the issuer
mismatches, the issuer failure is reported whatever the audience claim is. -/
theorem verify_order (st : ProcessState) (now : Int) (jar : Cookies) :
    (jar.session_jwt = none → api_ping st jar now = mkErr "Missing JWT (Cookie)" 401) ∧
    (∀ d, jar.session_jwt = some (CookieVal.malformed d) →
      api_ping st jar now = mkErr ("Cannot read header: " ++ d) 400) ∧
    (∀ t, jar.session_jwt = some (CookieVal.wellFormed t) →
      ((t.header.alg ≠ ALG →
          api_ping st jar now =
            mkErr ("Invalid Token: " ++ errMessage DecodeError.invalidAlgorithm) 401) ∧
       (t.header.alg = ALG → ¬ SigOK t st.keyId →
          api_ping st jar now =
            mkErr ("Invalid Token: " ++ errMessage DecodeError.invalidSignature) 401) ∧
       (∀ n, t.header.alg = ALG → SigOK t st.keyId →
          firstMissing t.claims REQUIRED = some n →
          api_ping st jar now =
            mkErr ("Invalid Token: " ++ errMessage (DecodeError.missingRequiredClaim n)) 401) ∧
       (t.header.alg = ALG → SigOK t st.keyId →
          firstMissing t.claims REQUIRED = none →
          validate_iat t.claims now LEEWAY_SECONDS = none →
          validate_nbf t.claims now LEEWAY_SECONDS = none →
          validate_exp t.claims now LEEWAY_SECONDS = some DecodeError.expiredSignature →
          api_ping st jar now = mkErr "Token expired" 401) ∧
       (t.header.alg = ALG → SigOK t st.keyId →
          firstMissing t.claims REQUIRED = none →
          validate_iat t.claims now LEEWAY_SECONDS = none →
          validate_nbf t.claims now LEEWAY_SECONDS = none →
          validate_exp t.claims now LEEWAY_SECONDS = none →
          validate_iss t.claims ISSUER = some DecodeError.invalidIssuer →
          api_ping st jar now = mkErr "iss mismatch" 401) ∧
       (t.header.alg = ALG → SigOK t st.keyId →
          firstMissing t.claims REQUIRED = none →
          validate_iat t.claims now LEEWAY_SECONDS = none →
          validate_nbf t.claims now LEEWAY_SECONDS = none →
          validate_exp t.claims now LEEWAY_SECONDS = none →
          validate_iss t.claims ISSUER = none →
          validate_aud t.claims AUDIENCE = some DecodeError.invalidAudience →
          api_ping st jar now = mkErr "aud mismatch" 401))) := by
  refine ⟨?_, ?_, ?_⟩
  · intro h; simp [api_ping, h]
  · intro d h; simp [api_ping, h]
  · intro t h
    refine ⟨?_, ?_, ?_, ?_, ?_, ?_⟩
    · intro halg
      simp only [api_ping, h, jwtDecode]
      rw [if_pos (by simpa using halg)]
    · intro halg hsig
      simp only [api_ping, h, jwtDecode]
      rw [if_neg (by simp [halg]), if_pos hsig]
    · intro n halg hsig hmiss
      simp only [api_ping, h, jwtDecode]
      rw [if_neg (by simp [halg]), if_neg (not_not_intro hsig)]
      simp only [validateClaims, requiredErr, hmiss, Option.map_some', firstErr]
    · intro halg hsig hreq hiat hnbf hexp
      simp only [api_ping, h, jwtDecode]
      rw [if_neg (by simp [halg]), if_neg (not_not_intro hsig)]
      simp only [validateClaims, requiredErr, hreq, Option.map_none', hiat, hnbf, hexp, firstErr]
    · intro halg hsig hreq hiat hnbf hexp hiss
      simp only [api_ping, h, jwtDecode]
      rw [if_neg (by simp [halg]), if_neg (not_not_intro hsig)]
      simp only [validateClaims, requiredErr, hreq, Option.map_none', hiat, hnbf, hexp, hiss,
        firstErr]
    · intro halg hsig hreq hiat hnbf hexp hiss haud
      simp only [api_ping, h, jwtDecode]
      rw [if_neg (by simp [halg]), if_neg (not_not_intro hsig)]
      simp only [validateClaims, requiredErr, hreq, Option.map_none', hiat, hnbf, hexp, hiss,
        haud, firstErr]

theorem verify_order_witness :
    api_ping demoState
        { session_jwt := some (CookieVal.wellFormed badIssAudToken), jwt_exp := none } 100 =
      mkErr "iss mismatch" 401 := by
  have h := (verify_order demoState 100
      { session_jwt := some (CookieVal.wellFormed badIssAudToken), jwt_exp := none }).2.2
    badIssAudToken rfl
  exact h.2.2.2.2.1 rfl (by decide) (by decide) (by decide) (by decide) (by decide) (by decide)
